import Mathlib

/-!
Verification development for the design-guide extraction pipeline
(`design-guide/main.py`).  The Python/JavaScript code is shallowly embedded:
DOM elements become records of their computed-style strings and geometry,
each in-page collector becomes a pure function on a list of such elements,
and the side-effecting pipeline of `DesignExtractor.extract_all` becomes a
function from abstract per-stage outcomes (`Except` values standing for
"the stage's browser evaluation returned / raised") to the assembled run
data, threading state only where the code mutates it (the viewport in
`_test_responsive`).
-/

namespace DesignGuide

/-- Error payloads of raised exceptions are modelled as strings. -/
abbrev Err := String

/-- `exceptOk r` is `true` exactly when `r` carries a value, i.e. when the
modelled operation did not raise. -/
def exceptOk {α : Type} : Except Err α → Bool
  | Except.ok _ => true
  | Except.error _ => false

/-- Model of JavaScript `String.prototype.toLowerCase` as used on tag names
(`el.tagName.toLowerCase()`); `Char.toLower` lowers exactly the ASCII
letters, which covers HTML tag names. -/
def lowerStr (s : String) : String := String.mk (s.toList.map Char.toLower)

/-- Model of JavaScript `textContent.trim().substring(0, n)`: strip
whitespace from both ends, then keep the first `n` characters. -/
def jsTrimTake (s : String) (n : ℕ) : String :=
  String.mk (((s.toList.dropWhile Char.isWhitespace).reverse.dropWhile Char.isWhitespace).reverse.take n)

/-- Value of a list of decimal digit characters. -/
def digitsToNat (cs : List Char) : ℕ :=
  cs.foldl (fun n c => n * 10 + (c.toNat - Char.toNat ('0'))) 0

/-- Model of JavaScript `parseFloat` on the decimal forms produced by
computed-style values (optional sign, integer part, optional fraction;
no exponent appears in `px` values).  A string with no leading number
(`parseFloat` returns `NaN`) is mapped to `0`; the theorems below only
apply the key to parseable inputs. -/
def parseFloatKey (s : String) : ℚ :=
  let cs := s.toList.dropWhile (fun c => c.isWhitespace)
  let neg := match cs with | '-' :: _ => true | _ => false
  let cs2 := match cs with | '-' :: t => t | '+' :: t => t | _ => cs
  let ip := cs2.takeWhile (fun c => c.isDigit)
  let rest := cs2.dropWhile (fun c => c.isDigit)
  let fp := match rest with | '.' :: t => t.takeWhile (fun c => c.isDigit) | _ => []
  if ip.isEmpty && fp.isEmpty then 0
  else
    let mag : ℚ := mkRat ((digitsToNat ip) * 10 ^ fp.length + digitsToNat fp) (10 ^ fp.length)
    if neg then -mag else mag

/-- The comparator `(a, b) => parseFloat(a) - parseFloat(b)` used by the
layout and typography collectors: ascending order of the parsed number. -/
def numLe (a b : String) : Prop := parseFloatKey a ≤ parseFloatKey b

instance : DecidableRel numLe := fun a b => by unfold numLe; infer_instance

instance : IsTotal String numLe := ⟨fun a b => le_total (parseFloatKey a) (parseFloatKey b)⟩

instance : IsTrans String numLe := ⟨fun _ _ _ h1 h2 => le_trans h1 h2⟩

/-- Code-point-wise comparison underlying the default JavaScript
`Array.prototype.sort` comparator (which compares strings by code units;
identical on the ASCII values these collectors produce). -/
def lexLeB : List Char → List Char → Bool
  | [], _ => true
  | _ :: _, [] => false
  | a :: as, b :: bs =>
    if a.toNat < b.toNat then true
    else if b.toNat < a.toNat then false
    else lexLeB as bs

lemma lexLeB_total : ∀ (a b : List Char), lexLeB a b = true ∨ lexLeB b a = true := by
  intro a
  induction a with
  | nil => intro b; left; rfl
  | cons x xs ih =>
    intro b
    cases b with
    | nil => right; rfl
    | cons y ys =>
      by_cases h1 : x.toNat < y.toNat
      · left; simp [lexLeB, h1]
      · by_cases h2 : y.toNat < x.toNat
        · right; simp [lexLeB, h2]
        · rcases ih ys with h | h
          · left; simp [lexLeB, h1, h2, h]
          · right; simp [lexLeB, h1, h2, h]

lemma lexLeB_trans : ∀ (a b c : List Char),
    lexLeB a b = true → lexLeB b c = true → lexLeB a c = true := by
  intro a
  induction a with
  | nil => intro b c h1 h2; rfl
  | cons x xs ih =>
    intro b c h1 h2
    cases b with
    | nil => exact nomatch h1
    | cons y ys =>
      cases c with
      | nil => exact nomatch h2
      | cons z zs =>
        simp only [lexLeB] at h1 h2 ⊢
        by_cases hxy : x.toNat < y.toNat
        · by_cases hyz : y.toNat < z.toNat
          · simp [show x.toNat < z.toNat by omega]
          · by_cases hzy : z.toNat < y.toNat
            · rw [if_neg hyz, if_pos hzy] at h2; exact nomatch h2
            · simp [show x.toNat < z.toNat by omega]
        · by_cases hyx : y.toNat < x.toNat
          · rw [if_neg hxy, if_pos hyx] at h1; exact nomatch h1
          · by_cases hyz : y.toNat < z.toNat
            · simp [show x.toNat < z.toNat by omega]
            · by_cases hzy : z.toNat < y.toNat
              · rw [if_neg hyz, if_pos hzy] at h2; exact nomatch h2
              · rw [if_neg hxy, if_neg hyx] at h1
                rw [if_neg hyz, if_neg hzy] at h2
                rw [if_neg (show ¬ x.toNat < z.toNat by omega),
                  if_neg (show ¬ z.toNat < x.toNat by omega)]
                exact ih ys zs h1 h2

/-- The default JavaScript `sort()` string order. -/
def lexLe (a b : String) : Prop := lexLeB a.toList b.toList = true

instance : DecidableRel lexLe := fun a b => by unfold lexLe; infer_instance

instance : IsTotal String lexLe := ⟨fun a b => lexLeB_total a.toList b.toList⟩

instance : IsTrans String lexLe := ⟨fun a b c => lexLeB_trans a.toList b.toList c.toList⟩

/-- `Array.from(new Set(...))`: a JavaScript `Set` iterates in insertion
order, so converting a set built by successive `add` calls to an array
keeps the first occurrence of each value, in encounter order. -/
def insertionDedup (l : List String) : List String :=
  l.foldl (fun acc x => if x ∈ acc then acc else acc ++ [x]) []

/-- `.sort((a, b) => parseFloat(a) - parseFloat(b))`; a stable sort, like
the JavaScript engine's. -/
def sortNum (l : List String) : List String := List.insertionSort numLe l

/-- Default-comparator `.sort()`; a stable sort, like the engine's. -/
def sortLex (l : List String) : List String := List.insertionSort lexLe l

/-- Substring test on character lists, modelling the CSS attribute selector
`[class*="…"]` (substring match on the raw attribute value). -/
def hasSubList (pat : List Char) : List Char → Bool
  | [] => pat.isEmpty
  | c :: rest => pat.isPrefixOf (c :: rest) || hasSubList pat rest

/-- The fixed whitelist of computed-style properties the code reads, as one
record of resolved string values (`window.getComputedStyle(el)`).  Fields
cover every property accessed by any collector. -/
structure ComputedStyle where
  fontFamily : String := ""
  fontSize : String := ""
  fontWeight : String := ""
  lineHeight : String := ""
  letterSpacing : String := ""
  textAlign : String := ""
  textTransform : String := ""
  color : String := ""
  backgroundColor : String := ""
  backgroundImage : String := ""
  borderColor : String := ""
  margin : String := ""
  marginTop : String := ""
  marginRight : String := ""
  marginBottom : String := ""
  marginLeft : String := ""
  padding : String := ""
  paddingTop : String := ""
  paddingRight : String := ""
  paddingBottom : String := ""
  paddingLeft : String := ""
  border : String := ""
  borderRadius : String := ""
  display : String := ""
  position : String := ""
  top : String := ""
  width : String := ""
  height : String := ""
  maxWidth : String := ""
  minWidth : String := ""
  flexDirection : String := ""
  justifyContent : String := ""
  alignItems : String := ""
  gap : String := ""
  gridTemplateColumns : String := ""
  boxShadow : String := ""
  textShadow : String := ""
  opacity : String := ""
  filter : String := ""
  transform : String := ""
  transition : String := ""
  animation : String := ""
  cursor : String := ""
  overflow : String := ""
  zIndex : String := ""
  scrollBehavior : String := ""
  deriving DecidableEq

/-- A rendered DOM element as the collectors observe it: tag name (as DOM
`tagName`, upper-case for HTML elements), `id` and raw `class` attribute,
parsed class list, the attributes the component/interactive selectors test,
the bounding client rect, text content, and computed style. -/
structure DomEl where
  tag : String := ""
  idAttr : String := ""
  className : String := ""
  classList : List String := []
  role : Option String := none
  typeAttr : Option String := none
  hasOnclick : Bool := false
  hasTabindex : Bool := false
  rectTop : ℚ := 0
  rectLeft : ℚ := 0
  rectW : ℚ := 0
  rectH : ℚ := 0
  text : String := ""
  style : ComputedStyle := {}
  deriving DecidableEq

/-! ### StyleSampler: `_extract_computed_styles` -/

/-- The base selector derived in `_extract_computed_styles`:
`tagName.toLowerCase() + (id ? '#' + id : '') + (className ? '.' + [...classList].join('.') : '')`. -/
def csBaseSelector (el : DomEl) : String :=
  lowerStr el.tag
    ++ (if el.idAttr = "" then "" else "#" ++ el.idAttr)
    ++ (if el.className = "" then "" else "." ++ String.intercalate (".") el.classList)

/-- The per-element record stored by the computed-styles pass (the 34
properties listed in its script). -/
structure CSRecord where
  fontFamily : String
  fontSize : String
  fontWeight : String
  lineHeight : String
  letterSpacing : String
  textAlign : String
  textTransform : String
  color : String
  backgroundColor : String
  margin : String
  padding : String
  border : String
  borderRadius : String
  display : String
  position : String
  width : String
  height : String
  maxWidth : String
  minWidth : String
  flexDirection : String
  justifyContent : String
  alignItems : String
  gap : String
  gridTemplateColumns : String
  boxShadow : String
  textShadow : String
  opacity : String
  filter : String
  transform : String
  transition : String
  animation : String
  cursor : String
  overflow : String
  zIndex : String
  deriving DecidableEq

/-- Projection of a computed style onto the sampled record. -/
def csRecordOf (el : DomEl) : CSRecord :=
  { fontFamily := el.style.fontFamily, fontSize := el.style.fontSize
    fontWeight := el.style.fontWeight, lineHeight := el.style.lineHeight
    letterSpacing := el.style.letterSpacing, textAlign := el.style.textAlign
    textTransform := el.style.textTransform, color := el.style.color
    backgroundColor := el.style.backgroundColor, margin := el.style.margin
    padding := el.style.padding, border := el.style.border
    borderRadius := el.style.borderRadius, display := el.style.display
    position := el.style.position, width := el.style.width
    height := el.style.height, maxWidth := el.style.maxWidth
    minWidth := el.style.minWidth, flexDirection := el.style.flexDirection
    justifyContent := el.style.justifyContent, alignItems := el.style.alignItems
    gap := el.style.gap, gridTemplateColumns := el.style.gridTemplateColumns
    boxShadow := el.style.boxShadow, textShadow := el.style.textShadow
    opacity := el.style.opacity, filter := el.style.filter
    transform := el.style.transform, transition := el.style.transition
    animation := el.style.animation, cursor := el.style.cursor
    overflow := el.style.overflow, zIndex := el.style.zIndex }

/-- The `elements.forEach((el, idx) => …)` loop of
`_extract_computed_styles`: `idx` is the traversal index over all elements,
`seen` the `seenSelectors` set.  The membership test is made on the *base*
selector; the (possibly suffixed) final selector is what is added to the
set, and `styles[selector] = …` records the assignment. -/
def extractStylesGo : ℕ → List String → List DomEl → List (String × CSRecord)
  | _, _, [] => []
  | i, seen, el :: rest =>
    let base := csBaseSelector el
    let sel := if base ∈ seen then base ++ "_" ++ toString i else base
    (sel, csRecordOf el) :: extractStylesGo (i + 1) (sel :: seen) rest

/-- `_extract_computed_styles` over the document's elements
(`document.querySelectorAll('*')`, document order). -/
def extractComputedStyles (els : List DomEl) : List (String × CSRecord) :=
  extractStylesGo 0 [] els

/-- The selector keys assigned into the `styles` object, in assignment
order (a duplicate key means the later assignment overwrites the earlier
entry of the JavaScript object). -/
def selectorKeys (els : List DomEl) : List String :=
  (extractComputedStyles els).map Prod.fst

/-! ### InteractiveStateProbe: `_capture_interactive_states` -/

/-- Bounding-box position recorded for an interactive element. -/
structure Position where
  top : ℚ := 0
  left : ℚ := 0
  width : ℚ := 0
  height : ℚ := 0
  deriving DecidableEq

/-- The eight properties sampled as an element's `default` state. -/
structure DefaultStyle where
  backgroundColor : String := ""
  color : String := ""
  borderColor : String := ""
  boxShadow : String := ""
  transform : String := ""
  opacity : String := ""
  cursor : String := ""
  transition : String := ""
  deriving DecidableEq

/-- The six properties sampled from the element found at the hover point. -/
structure HoverStyle where
  backgroundColor : String := ""
  color : String := ""
  borderColor : String := ""
  boxShadow : String := ""
  transform : String := ""
  opacity : String := ""
  deriving DecidableEq

/-- One entry of the in-page `states` array: selector, matched-list index,
bounding box, and default style. -/
structure InterRec where
  selector : String := ""
  index : ℕ := 0
  position : Position := {}
  defaultStyle : DefaultStyle := {}
  deriving DecidableEq

/-- One entry of `hover_states`: the original element's selector and
default style paired with the style sampled at the hover point. -/
structure HoverSampleRec where
  selector : String := ""
  hover : HoverStyle := {}
  defaultStyle : DefaultStyle := {}
  deriving DecidableEq

/-- Result dict of `_capture_interactive_states`. -/
structure InteractiveStates where
  all_interactive : List InterRec := []
  hover_samples : List HoverSampleRec := []
  deriving DecidableEq

/-- The interactive-role selector
`'a, button, input, select, textarea, [onclick], [tabindex]'`. -/
def interactiveMatch (el : DomEl) : Bool :=
  (["a", "button", "input", "select", "textarea"]).contains (lowerStr el.tag)
    || el.hasOnclick || el.hasTabindex

/-- `rect.width > 0 && rect.height > 0`. -/
def visibleEl (el : DomEl) : Bool :=
  decide ((0 : ℚ) < el.rectW) && decide ((0 : ℚ) < el.rectH)

/-- The probe's selector derivation: like the StyleSampler's but keeping
only the first three classes (`Array.from(el.classList).slice(0, 3)`). -/
def interSelector (el : DomEl) : String :=
  lowerStr el.tag
    ++ (if el.idAttr = "" then "" else "#" ++ el.idAttr)
    ++ (if el.className = "" then "" else "." ++ String.intercalate (".") (el.classList.take 3))

/-- The recorded bounding box. -/
def positionOf (el : DomEl) : Position :=
  { top := el.rectTop, left := el.rectLeft, width := el.rectW, height := el.rectH }

/-- The recorded default-state style. -/
def defaultStyleOf (el : DomEl) : DefaultStyle :=
  { backgroundColor := el.style.backgroundColor, color := el.style.color
    borderColor := el.style.borderColor, boxShadow := el.style.boxShadow
    transform := el.style.transform, opacity := el.style.opacity
    cursor := el.style.cursor, transition := el.style.transition }

/-- The record pushed for the `idx`-th matched element. -/
def mkInterRec (i : ℕ) (el : DomEl) : InterRec :=
  { selector := interSelector el, index := i, position := positionOf el
    defaultStyle := defaultStyleOf el }

/-- The `interactive.forEach((el, idx) => …)` loop: `idx` counts matched
elements; a record is pushed only for visible (non-zero rect) ones. -/
def interactiveElementsGo : ℕ → List DomEl → List InterRec
  | _, [] => []
  | i, el :: rest =>
    if visibleEl el then mkInterRec i el :: interactiveElementsGo (i + 1) rest
    else interactiveElementsGo (i + 1) rest

/-- The in-page script of `_capture_interactive_states`: all visible
interactive elements, in document order, with no cap. -/
def interactiveElements (els : List DomEl) : List InterRec :=
  interactiveElementsGo 0 (els.filter interactiveMatch)

/-- One iteration of the Python hover loop: move to the element's
bounding-box center, wait, then `document.elementFromPoint(x, y)` — the
abstract `probe` stands for that query against the live (hover-affected)
page; `Except.error` models the `try/except: continue`, `Except.ok none`
models `elementFromPoint` returning `null` (no sample recorded). -/
def hoverStep (probe : ℚ → ℚ → Except Err (Option HoverStyle))
    (acc : List HoverSampleRec) (e : InterRec) : List HoverSampleRec :=
  match probe (e.position.left + e.position.width / 2) (e.position.top + e.position.height / 2) with
  | Except.error _ => acc
  | Except.ok none => acc
  | Except.ok (some h) =>
    acc ++ [{ selector := e.selector, hover := h, defaultStyle := e.defaultStyle }]

/-- The sample the loop body produces for one element, if any. -/
def probeSample (probe : ℚ → ℚ → Except Err (Option HoverStyle))
    (e : InterRec) : Option HoverSampleRec :=
  match probe (e.position.left + e.position.width / 2) (e.position.top + e.position.height / 2) with
  | Except.ok (some h) => some { selector := e.selector, hover := h, defaultStyle := e.defaultStyle }
  | _ => none

/-- `_capture_interactive_states`: the full visible-interactive list is
returned under `all_interactive`; the hover loop runs over
`interactive_elements[:10]` only. -/
def captureInteractiveStates (els : List DomEl)
    (probe : ℚ → ℚ → Except Err (Option HoverStyle)) : InteractiveStates :=
  let inter := interactiveElements els
  { all_interactive := inter
    hover_samples := (inter.take 10).foldl (hoverStep probe) [] }

/-! ### TypographyCollector: `_extract_typography` -/

/-- Per-heading-tag record (`typography.headings[tag]`). -/
structure HeadingStyle where
  fontSize : String := ""
  fontWeight : String := ""
  lineHeight : String := ""
  letterSpacing : String := ""
  marginTop : String := ""
  marginBottom : String := ""
  color : String := ""
  deriving DecidableEq

/-- Body-text record (`typography.body`). -/
structure BodyStyle where
  fontSize : String := ""
  fontWeight : String := ""
  lineHeight : String := ""
  letterSpacing : String := ""
  color : String := ""
  deriving DecidableEq

/-- Return value of `_extract_typography`.  In the script, `body` stays the
empty object when neither a `p` nor a `body` element exists. -/
structure TypographyResult where
  fonts : List String := []
  sizes : List String := []
  weights : List String := []
  lineHeights : List String := []
  letterSpacings : List String := []
  textTransforms : List String := []
  headings : List (String × HeadingStyle) := []
  body : Option BodyStyle := none
  deriving DecidableEq

/-- The text-element selector `'h1, h2, h3, h4, h5, h6, p, a, span, button, li, label'`. -/
def typMatch (el : DomEl) : Bool :=
  (["h1", "h2", "h3", "h4", "h5", "h6", "p", "a", "span", "button", "li", "label"]).contains
    (lowerStr el.tag)

/-- Heading record captured for the first element of a heading tag. -/
def headingOf (el : DomEl) : HeadingStyle :=
  { fontSize := el.style.fontSize, fontWeight := el.style.fontWeight
    lineHeight := el.style.lineHeight, letterSpacing := el.style.letterSpacing
    marginTop := el.style.marginTop, marginBottom := el.style.marginBottom
    color := el.style.color }

/-- Body record captured from the first `p` (or else the `body`) element. -/
def bodyOf (el : DomEl) : BodyStyle :=
  { fontSize := el.style.fontSize, fontWeight := el.style.fontWeight
    lineHeight := el.style.lineHeight, letterSpacing := el.style.letterSpacing
    color := el.style.color }

/-- `_extract_typography`: sets are built in encounter order over the
matched text elements; on return, `sizes` is sorted with the `parseFloat`
comparator and `weights` / `lineHeights` with the default `sort()`, while
`fonts`, `letterSpacings` and `textTransforms` are returned unsorted. -/
def extractTypography (els : List DomEl) : TypographyResult :=
  let matched := els.filter typMatch
  { fonts := insertionDedup (matched.map (fun el => el.style.fontFamily))
    sizes := sortNum (insertionDedup (matched.map (fun el => el.style.fontSize)))
    weights := sortLex (insertionDedup (matched.map (fun el => el.style.fontWeight)))
    lineHeights := sortLex (insertionDedup (matched.map (fun el => el.style.lineHeight)))
    letterSpacings := insertionDedup (matched.map (fun el => el.style.letterSpacing))
    textTransforms := insertionDedup
      ((matched.filter (fun el => el.style.textTransform != "none")).map
        (fun el => el.style.textTransform))
    headings := (["h1", "h2", "h3", "h4", "h5", "h6"]).filterMap
      (fun t => (els.find? (fun el => lowerStr el.tag == t)).map (fun el => (t, headingOf el)))
    body := ((els.find? (fun el => lowerStr el.tag == "p")).orElse
      (fun _ => els.find? (fun el => lowerStr el.tag == "body"))).map bodyOf }

/-! ### LayoutCollector: `_extract_layout` -/

/-- One entry of `layout.containers`. -/
structure ContainerRec where
  maxWidth : String := ""
  padding : String := ""
  width : String := ""
  deriving DecidableEq

/-- Return value of `_extract_layout`. -/
structure LayoutResult where
  margins : List String := []
  paddings : List String := []
  gaps : List String := []
  borderRadii : List String := []
  maxWidths : List String := []
  containers : List ContainerRec := []
  deriving DecidableEq

/-- `rect.width + 'px'` for the container record. -/
def ratPx (q : ℚ) : String := toString q ++ ("px")

/-- `_extract_layout`: the four side values of margin and padding are
visited in top/right/bottom/left order per element, non-`0px` values are
collected, and the spacing sets are numerically sorted on return;
`maxWidths` is not sorted; `containers` keeps document order, capped by
`slice(0, 5)`. -/
def extractLayout (els : List DomEl) : LayoutResult :=
  { margins := sortNum (insertionDedup (els.flatMap (fun el =>
      ([el.style.marginTop, el.style.marginRight, el.style.marginBottom,
        el.style.marginLeft]).filter (fun v => v != "0px"))))
    paddings := sortNum (insertionDedup (els.flatMap (fun el =>
      ([el.style.paddingTop, el.style.paddingRight, el.style.paddingBottom,
        el.style.paddingLeft]).filter (fun v => v != "0px"))))
    gaps := sortNum (insertionDedup ((els.filter (fun el =>
      el.style.gap != "normal" && el.style.gap != "0px")).map (fun el => el.style.gap)))
    borderRadii := sortNum (insertionDedup ((els.filter (fun el =>
      el.style.borderRadius != "0px")).map (fun el => el.style.borderRadius)))
    maxWidths := insertionDedup ((els.filter (fun el =>
      el.style.maxWidth != "none")).map (fun el => el.style.maxWidth))
    containers := ((els.filter (fun el =>
      el.style.maxWidth != "none" && el.style.marginLeft == "auto"
        && el.style.marginRight == "auto" && decide ((500 : ℚ) < el.rectW))).map
      (fun el => { maxWidth := el.style.maxWidth, padding := el.style.padding
                   width := ratPx el.rectW })).take 5 }

/-! ### EffectsCollector: `_extract_effects` -/

/-- Return value of `_extract_effects`. -/
structure EffectsResult where
  boxShadows : List String := []
  textShadows : List String := []
  filters : List String := []
  transforms : List String := []
  opacities : List String := []
  deriving DecidableEq

/-- `_extract_effects`: non-`none` shadows/filters/transforms and non-`1`
opacities, in encounter order; only `opacities` is sorted (default
`sort()`) on return. -/
def extractEffects (els : List DomEl) : EffectsResult :=
  { boxShadows := insertionDedup ((els.filter (fun el =>
      el.style.boxShadow != "none")).map (fun el => el.style.boxShadow))
    textShadows := insertionDedup ((els.filter (fun el =>
      el.style.textShadow != "none")).map (fun el => el.style.textShadow))
    filters := insertionDedup ((els.filter (fun el =>
      el.style.filter != "none")).map (fun el => el.style.filter))
    transforms := insertionDedup ((els.filter (fun el =>
      el.style.transform != "none")).map (fun el => el.style.transform))
    opacities := sortLex (insertionDedup ((els.filter (fun el =>
      el.style.opacity != "1")).map (fun el => el.style.opacity))) }

/-! ### ComponentClassifier: `_identify_components` -/

/-- Button sample: trimmed 30-character text plus seven style properties. -/
structure ButtonSample where
  text : String := ""
  backgroundColor : String := ""
  color : String := ""
  padding : String := ""
  borderRadius : String := ""
  border : String := ""
  fontSize : String := ""
  fontWeight : String := ""
  deriving DecidableEq

/-- Card sample styles. -/
structure CardSample where
  backgroundColor : String := ""
  borderRadius : String := ""
  boxShadow : String := ""
  padding : String := ""
  border : String := ""
  deriving DecidableEq

/-- Navbar sample styles. -/
structure NavbarSample where
  backgroundColor : String := ""
  height : String := ""
  position : String := ""
  boxShadow : String := ""
  padding : String := ""
  deriving DecidableEq

/-- Form-control sample: tag plus five style properties. -/
structure FormSample where
  type : String := ""
  backgroundColor : String := ""
  border : String := ""
  borderRadius : String := ""
  padding : String := ""
  fontSize : String := ""
  deriving DecidableEq

/-- Return value of `_identify_components`.  `modals`, `badges` and
`alerts` are initialised as arrays in the script; nothing is ever pushed
into them, so their element type is unconstrained and modelled as a raw
style record. -/
structure ComponentsResult where
  buttons : List ButtonSample := []
  cards : List CardSample := []
  navbars : List NavbarSample := []
  forms : List FormSample := []
  modals : List ComputedStyle := []
  badges : List ComputedStyle := []
  alerts : List ComputedStyle := []
  deriving DecidableEq

/-- `'button, [role="button"], a.btn, a.button, input[type="button"], input[type="submit"]'`. -/
def matchesButtonSel (el : DomEl) : Bool :=
  lowerStr el.tag == "button"
    || el.role == some ("button")
    || (lowerStr el.tag == "a" && (el.classList.contains ("btn") || el.classList.contains ("button")))
    || (lowerStr el.tag == "input"
        && (el.typeAttr == some ("button") || el.typeAttr == some ("submit")))

/-- `'[class*="card"], .article, article, [class*="post"]'`: substring
match on the raw class attribute, class token `article`, or tag. -/
def matchesCardSel (el : DomEl) : Bool :=
  hasSubList ("card").toList el.className.toList
    || el.classList.contains ("article")
    || lowerStr el.tag == "article"
    || hasSubList ("post").toList el.className.toList

/-- `'nav, [role="navigation"], header nav'` — every `header nav` match is
already a `nav` match, so the union is tag `nav` or the navigation role. -/
def matchesNavSel (el : DomEl) : Bool :=
  lowerStr el.tag == "nav" || el.role == some ("navigation")

/-- `'form, input, select, textarea'`. -/
def matchesFormSel (el : DomEl) : Bool :=
  (["form", "input", "select", "textarea"]).contains (lowerStr el.tag)

/-- The card size gate `rect.width > 200 && rect.height > 100` — the only
rendered-size check in `_identify_components`. -/
def bigRect (el : DomEl) : Bool :=
  decide ((200 : ℚ) < el.rectW) && decide ((100 : ℚ) < el.rectH)

/-- Button sample for a matched element. -/
def btnSampleOf (el : DomEl) : ButtonSample :=
  { text := jsTrimTake el.text 30
    backgroundColor := el.style.backgroundColor, color := el.style.color
    padding := el.style.padding, borderRadius := el.style.borderRadius
    border := el.style.border, fontSize := el.style.fontSize
    fontWeight := el.style.fontWeight }

/-- Card sample for a matched element. -/
def cardSampleOf (el : DomEl) : CardSample :=
  { backgroundColor := el.style.backgroundColor, borderRadius := el.style.borderRadius
    boxShadow := el.style.boxShadow, padding := el.style.padding
    border := el.style.border }

/-- Navbar sample for a matched element. -/
def navSampleOf (el : DomEl) : NavbarSample :=
  { backgroundColor := el.style.backgroundColor, height := el.style.height
    position := el.style.position, boxShadow := el.style.boxShadow
    padding := el.style.padding }

/-- Form sample for a matched element. -/
def formSampleOf (el : DomEl) : FormSample :=
  { type := lowerStr el.tag
    backgroundColor := el.style.backgroundColor, border := el.style.border
    borderRadius := el.style.borderRadius, padding := el.style.padding
    fontSize := el.style.fontSize }

/-- `_identify_components`: each category iterates its matches in document
order with `if (idx < cap)`, i.e. only the first `cap` *matched* elements
are considered; for cards the `rect` check is applied inside that window.
Buttons, navbars and forms have no size check.  `modals`, `badges`,
`alerts` are never appended to. -/
def identifyComponents (els : List DomEl) : ComponentsResult :=
  { buttons := ((els.filter matchesButtonSel).take 5).map btnSampleOf
    cards := (((els.filter matchesCardSel).take 3).filter bigRect).map cardSampleOf
    navbars := ((els.filter matchesNavSel).take 2).map navSampleOf
    forms := ((els.filter matchesFormSel).take 5).map formSampleOf
    modals := []
    badges := []
    alerts := [] }

/-! ### ResponsiveSampler: `_test_responsive`

The page's viewport is the one piece of browser state the pipeline
mutates, so it is threaded explicitly: the function maps the current
viewport to the viewport at exit together with the stage's result. -/

/-- The in-page measurement at one breakpoint. -/
structure BpLayout where
  viewportWidth : ℕ := 0
  viewportHeight : ℕ := 0
  scrollHeight : ℕ := 0
  bodyWidth : ℚ := 0
  deriving DecidableEq

/-- The per-breakpoint record stored into `responsive_data`. -/
structure BpResult where
  viewport : String × ℕ × ℕ
  layout : BpLayout
  screenshot : String
  deriving DecidableEq

/-- The two fallible browser operations of one breakpoint iteration:
`page.screenshot` and the `page.evaluate(layout_script)` measurement. -/
structure BpOutcome where
  shot : Except Err Unit := Except.ok ()
  layoutInfo : Except Err BpLayout := Except.ok {}

/-- The fixed breakpoint list of `_test_responsive`. -/
def breakpoints : List (String × ℕ × ℕ) :=
  [("mobile", 375, 812), ("tablet", 768, 1024), ("desktop", 1920, 1080)]

/-- The `for bp in breakpoints:` loop.  Each iteration first sets the
viewport to the breakpoint's size; an exception from the screenshot or the
measurement propagates immediately (there is no `try`/`finally`), leaving
the viewport at that breakpoint's size.  Only after the loop completes is
the viewport reset to the configured `(cfgW, cfgH)`. -/
def testResponsiveGo (cfgW cfgH : ℕ) (out : String → BpOutcome) :
    List (String × ℕ × ℕ) → ℕ × ℕ → List (String × BpResult) →
    (ℕ × ℕ) × Except Err (List (String × BpResult))
  | [], _, acc => ((cfgW, cfgH), Except.ok acc)
  | (nm, w, hgt) :: rest, _, acc =>
    match (out nm).shot with
    | Except.error e => ((w, hgt), Except.error e)
    | Except.ok _ =>
      match (out nm).layoutInfo with
      | Except.error e => ((w, hgt), Except.error e)
      | Except.ok li =>
        testResponsiveGo cfgW cfgH out rest (w, hgt)
          (acc ++ [(nm, { viewport := (nm, w, hgt), layout := li
                          screenshot := ("responsive_") ++ nm ++ (".png") })])

/-- `_test_responsive`, from the viewport state `vp0` the run starts the
stage with, for a pipeline configured with viewport `(cfgW, cfgH)`. -/
def testResponsive (cfgW cfgH : ℕ) (out : String → BpOutcome) (vp0 : ℕ × ℕ) :
    (ℕ × ℕ) × Except Err (List (String × BpResult)) :=
  testResponsiveGo cfgW cfgH out breakpoints vp0 []

/-! ### The pipeline: `DesignExtractor.extract_all` and `main`

Each stage of `extract_all` is one self-contained interaction with the
live page; its outcome is abstracted as an `Except` value (the value the
stage's browser calls produced, or the exception they raised).  The
embedding records the invocation order and propagates the first error —
there is no `try`/`except` between `extract_all`'s stages; the only
handler is `main`'s top-level one, which exits with status 1. -/

/-- The stages of `extract_all`, in the code's declaration order. -/
inductive Stage
  | navigate
  | screenshots
  | content
  | css
  | styleSampler
  | interactive
  | colors
  | typography
  | layout
  | animations
  | effects
  | components
  | ux
  | responsive
  | aggregate
  deriving DecidableEq

/-- Return value of `_extract_colors`. -/
structure ColorsResult where
  textColors : List String := []
  backgroundColors : List String := []
  borderColors : List String := []
  shadowColors : List String := []
  gradients : List String := []

/-- One keyframes rule read from an accessible stylesheet. -/
structure KeyframeRec where
  name : String := ""
  rules : List String := []

/-- One entry of `animatedElements`. -/
structure AnimatedElRec where
  selector : String := ""
  animation : String := ""

/-- Return value of `_extract_animations`. -/
structure AnimationsResult where
  transitions : List String := []
  keyframes : List KeyframeRec := []
  animatedElements : List AnimatedElRec := []

/-- The `accessibilityFeatures` counts of `_analyze_ux_patterns`. -/
structure AccessibilityFeatures where
  ariaLabels : ℕ := 0
  ariaDescriptions : ℕ := 0
  roles : ℕ := 0
  alts : ℕ := 0

/-- One sticky/fixed element record. -/
structure StickyElRec where
  tagName : String := ""
  position : String := ""
  top : String := ""
  zIndex : String := ""

/-- Return value of `_analyze_ux_patterns`. -/
structure UxResult where
  scrollBehavior : String := ""
  cursorStyles : List String := []
  interactiveElements : ℕ := 0
  accessibilityFeatures : AccessibilityFeatures := {}
  stickyElements : List StickyElRec := []

/-- The outcome of each stage's browser work for one run: `Except.error`
models the stage raising, `Except.ok` the value it produced. -/
structure StageOutcomes where
  navigate : Except Err Unit := Except.ok ()
  screenshots : Except Err Unit := Except.ok ()
  content : Except Err String := Except.ok ("")
  extractCss : Except Err String := Except.ok ("")
  computedStyles : Except Err (List (String × CSRecord)) := Except.ok []
  interactive : Except Err InteractiveStates := Except.ok {}
  colors : Except Err ColorsResult := Except.ok {}
  typography : Except Err TypographyResult := Except.ok {}
  layout : Except Err LayoutResult := Except.ok {}
  animations : Except Err AnimationsResult := Except.ok {}
  effects : Except Err EffectsResult := Except.ok {}
  components : Except Err ComponentsResult := Except.ok {}
  ux : Except Err UxResult := Except.ok {}
  responsive : Except Err (List (String × BpResult)) := Except.ok []

/-- The `data` dict assembled at the end of `extract_all` (the computed
styles are written to their own file, not stored in `data`). -/
structure RunData where
  url : String
  viewport : ℕ × ℕ
  colors : ColorsResult
  typography : TypographyResult
  layout : LayoutResult
  animations : AnimationsResult
  effects : EffectsResult
  interactive_states : InteractiveStates
  components : ComponentsResult
  ux_patterns : UxResult
  responsive : List (String × BpResult)
  screenshots : String × String

/-- `extract_all`, instrumented with the list of stages entered.  The
match order is the code's invocation order (navigate → screenshots →
content → CSS → computed styles → interactive states → colors →
typography → layout → animations → effects → components → UX →
responsive → aggregation); an error anywhere stops the run there. -/
def extractAllT (url : String) (vw vh : ℕ) (o : StageOutcomes) :
    List Stage × Except Err RunData :=
  match o.navigate with
  | Except.error e => ([Stage.navigate], Except.error e)
  | Except.ok _ =>
  match o.screenshots with
  | Except.error e => ([Stage.navigate, Stage.screenshots], Except.error e)
  | Except.ok _ =>
  match o.content with
  | Except.error e => ([Stage.navigate, Stage.screenshots, Stage.content], Except.error e)
  | Except.ok _ =>
  match o.extractCss with
  | Except.error e =>
    ([Stage.navigate, Stage.screenshots, Stage.content, Stage.css], Except.error e)
  | Except.ok _ =>
  match o.computedStyles with
  | Except.error e =>
    ([Stage.navigate, Stage.screenshots, Stage.content, Stage.css, Stage.styleSampler],
     Except.error e)
  | Except.ok _ =>
  match o.interactive with
  | Except.error e =>
    ([Stage.navigate, Stage.screenshots, Stage.content, Stage.css, Stage.styleSampler,
      Stage.interactive], Except.error e)
  | Except.ok interV =>
  match o.colors with
  | Except.error e =>
    ([Stage.navigate, Stage.screenshots, Stage.content, Stage.css, Stage.styleSampler,
      Stage.interactive, Stage.colors], Except.error e)
  | Except.ok colorsV =>
  match o.typography with
  | Except.error e =>
    ([Stage.navigate, Stage.screenshots, Stage.content, Stage.css, Stage.styleSampler,
      Stage.interactive, Stage.colors, Stage.typography], Except.error e)
  | Except.ok typoV =>
  match o.layout with
  | Except.error e =>
    ([Stage.navigate, Stage.screenshots, Stage.content, Stage.css, Stage.styleSampler,
      Stage.interactive, Stage.colors, Stage.typography, Stage.layout], Except.error e)
  | Except.ok layoutV =>
  match o.animations with
  | Except.error e =>
    ([Stage.navigate, Stage.screenshots, Stage.content, Stage.css, Stage.styleSampler,
      Stage.interactive, Stage.colors, Stage.typography, Stage.layout, Stage.animations],
     Except.error e)
  | Except.ok animsV =>
  match o.effects with
  | Except.error e =>
    ([Stage.navigate, Stage.screenshots, Stage.content, Stage.css, Stage.styleSampler,
      Stage.interactive, Stage.colors, Stage.typography, Stage.layout, Stage.animations,
      Stage.effects], Except.error e)
  | Except.ok effectsV =>
  match o.components with
  | Except.error e =>
    ([Stage.navigate, Stage.screenshots, Stage.content, Stage.css, Stage.styleSampler,
      Stage.interactive, Stage.colors, Stage.typography, Stage.layout, Stage.animations,
      Stage.effects, Stage.components], Except.error e)
  | Except.ok compsV =>
  match o.ux with
  | Except.error e =>
    ([Stage.navigate, Stage.screenshots, Stage.content, Stage.css, Stage.styleSampler,
      Stage.interactive, Stage.colors, Stage.typography, Stage.layout, Stage.animations,
      Stage.effects, Stage.components, Stage.ux], Except.error e)
  | Except.ok uxV =>
  match o.responsive with
  | Except.error e =>
    ([Stage.navigate, Stage.screenshots, Stage.content, Stage.css, Stage.styleSampler,
      Stage.interactive, Stage.colors, Stage.typography, Stage.layout, Stage.animations,
      Stage.effects, Stage.components, Stage.ux, Stage.responsive], Except.error e)
  | Except.ok respV =>
    ([Stage.navigate, Stage.screenshots, Stage.content, Stage.css, Stage.styleSampler,
      Stage.interactive, Stage.colors, Stage.typography, Stage.layout, Stage.animations,
      Stage.effects, Stage.components, Stage.ux, Stage.responsive, Stage.aggregate],
     Except.ok { url := url, viewport := (vw, vh), colors := colorsV, typography := typoV
                 layout := layoutV, animations := animsV, effects := effectsV
                 interactive_states := interV, components := compsV, ux_patterns := uxV
                 responsive := respV
                 screenshots := ("viewport_screenshot.png", "fullpage_screenshot.png") })

/-- `main`'s top-level handler: any exception escaping `extract_all` is
printed and the process exits with status 1; otherwise 0. -/
def mainExitCode (url : String) (vw vh : ℕ) (o : StageOutcomes) : ℕ :=
  match (extractAllT url vw vh o).2 with
  | Except.ok _ => 0
  | Except.error _ => 1

/-- The stage order of `extract_all` as the code invokes it. -/
def codeStageOrder : List Stage :=
  [Stage.navigate, Stage.screenshots, Stage.content, Stage.css, Stage.styleSampler,
   Stage.interactive, Stage.colors, Stage.typography, Stage.layout, Stage.animations,
   Stage.effects, Stage.components, Stage.ux, Stage.responsive, Stage.aggregate]

/-- Modelled from the spec's words, for comparison: the stage order the
specification's pipeline state machine asserts ("Navigate → StyleSampler →
ColorPalette → Typography → Layout → Animation → Effects →
InteractiveStateProbe → ComponentClassifier → UXPatternAnalyzer →
ResponsiveSampler → Aggregate"). -/
def specStageOrder : List Stage :=
  [Stage.navigate, Stage.styleSampler, Stage.colors, Stage.typography, Stage.layout,
   Stage.animations, Stage.effects, Stage.interactive, Stage.components, Stage.ux,
   Stage.responsive, Stage.aggregate]

/-- The all-stages-succeed outcome used to exhibit a completed run. -/
def okOutcomes : StageOutcomes := {}

/-! ### Helper lemmas -/

/-- Control-flow characterisation of `extract_all`: the run completes
exactly when every stage call succeeds, and a completed run has entered
the stages in the code's order. -/
lemma extractAllT_run (url : String) (vw vh : ℕ) (o : StageOutcomes) :
    (exceptOk (extractAllT url vw vh o).2 =
      (exceptOk o.navigate && exceptOk o.screenshots && exceptOk o.content
        && exceptOk o.extractCss && exceptOk o.computedStyles && exceptOk o.interactive
        && exceptOk o.colors && exceptOk o.typography && exceptOk o.layout
        && exceptOk o.animations && exceptOk o.effects && exceptOk o.components
        && exceptOk o.ux && exceptOk o.responsive))
    ∧ (exceptOk (extractAllT url vw vh o).2 = true →
        (extractAllT url vw vh o).1 = codeStageOrder) := by
  obtain ⟨nav, scr, cont, css, sty, inter, col, typ, lay, ani, eff, comp, ux, resp⟩ := o
  cases nav with
  | error e => exact ⟨rfl, fun h => nomatch h⟩
  | ok v1 =>
  cases scr with
  | error e => exact ⟨rfl, fun h => nomatch h⟩
  | ok v2 =>
  cases cont with
  | error e => exact ⟨rfl, fun h => nomatch h⟩
  | ok v3 =>
  cases css with
  | error e => exact ⟨rfl, fun h => nomatch h⟩
  | ok v4 =>
  cases sty with
  | error e => exact ⟨rfl, fun h => nomatch h⟩
  | ok v5 =>
  cases inter with
  | error e => exact ⟨rfl, fun h => nomatch h⟩
  | ok v6 =>
  cases col with
  | error e => exact ⟨rfl, fun h => nomatch h⟩
  | ok v7 =>
  cases typ with
  | error e => exact ⟨rfl, fun h => nomatch h⟩
  | ok v8 =>
  cases lay with
  | error e => exact ⟨rfl, fun h => nomatch h⟩
  | ok v9 =>
  cases ani with
  | error e => exact ⟨rfl, fun h => nomatch h⟩
  | ok v10 =>
  cases eff with
  | error e => exact ⟨rfl, fun h => nomatch h⟩
  | ok v11 =>
  cases comp with
  | error e => exact ⟨rfl, fun h => nomatch h⟩
  | ok v12 =>
  cases ux with
  | error e => exact ⟨rfl, fun h => nomatch h⟩
  | ok v13 =>
  cases resp with
  | error e => exact ⟨rfl, fun h => nomatch h⟩
  | ok v14 => exact ⟨rfl, fun _ => rfl⟩

/-- If the breakpoint loop runs to completion, the viewport it leaves
behind is the configured one, whatever state it started from. -/
lemma testResponsiveGo_ok (cfgW cfgH : ℕ) (out : String → BpOutcome) :
    ∀ (l : List (String × ℕ × ℕ)) (vp : ℕ × ℕ) (acc : List (String × BpResult)),
      exceptOk (testResponsiveGo cfgW cfgH out l vp acc).2 = true →
      (testResponsiveGo cfgW cfgH out l vp acc).1 = (cfgW, cfgH) := by
  intro l
  induction l with
  | nil => intro vp acc _; rfl
  | cons bp rest ih =>
    intro vp acc h
    obtain ⟨nm, w, hgt⟩ := bp
    cases hs : (out nm).shot with
    | error e =>
      rw [show testResponsiveGo cfgW cfgH out ((nm, w, hgt) :: rest) vp acc
          = ((w, hgt), Except.error e) by rw [testResponsiveGo, hs]] at h
      exact nomatch h
    | ok u =>
      cases hl : (out nm).layoutInfo with
      | error e =>
        rw [show testResponsiveGo cfgW cfgH out ((nm, w, hgt) :: rest) vp acc
            = ((w, hgt), Except.error e) by rw [testResponsiveGo, hs, hl]] at h
        exact nomatch h
      | ok li =>
        have hstep : testResponsiveGo cfgW cfgH out ((nm, w, hgt) :: rest) vp acc
            = testResponsiveGo cfgW cfgH out rest (w, hgt)
              (acc ++ [(nm, { viewport := (nm, w, hgt), layout := li
                              screenshot := ("responsive_") ++ nm ++ (".png") })]) := by
          rw [testResponsiveGo, hs, hl]
        rw [hstep] at h ⊢
        exact ih _ _ h

/-- Length of the visible-filtered interactive list. -/
lemma interactiveElementsGo_length :
    ∀ (l : List DomEl) (i : ℕ),
      (interactiveElementsGo i l).length = (l.filter visibleEl).length := by
  intro l
  induction l with
  | nil => intro i; rfl
  | cons el rest ih =>
    intro i
    by_cases hv : visibleEl el
    · simp [interactiveElementsGo, List.filter, hv, ih]
    · simp [interactiveElementsGo, List.filter, hv, ih]

/-- Every visible element of the matched list yields a record carrying its
selector, default style and bounding box. -/
lemma interactiveElementsGo_mem (el : DomEl) :
    ∀ (l : List DomEl) (i : ℕ), el ∈ l → visibleEl el = true →
      ∃ r ∈ interactiveElementsGo i l,
        r.selector = interSelector el ∧ r.defaultStyle = defaultStyleOf el
          ∧ r.position = positionOf el := by
  intro l
  induction l with
  | nil => intro i h; exact absurd h (List.not_mem_nil el)
  | cons x rest ih =>
    intro i hmem hv
    rcases List.mem_cons.mp hmem with heq | htail
    · subst heq
      refine ⟨mkInterRec i el, ?_, rfl, rfl, rfl⟩
      simp [interactiveElementsGo, hv]
    · by_cases hvx : visibleEl x
      · obtain ⟨r, hr, hprops⟩ := ih (i + 1) htail hv
        exact ⟨r, by simp [interactiveElementsGo, hvx]; exact Or.inr hr, hprops⟩
      · obtain ⟨r, hr, hprops⟩ := ih (i + 1) htail hv
        exact ⟨r, by simp [interactiveElementsGo, hvx]; exact hr, hprops⟩

/-- The hover loop is the `filterMap` of the per-element sample over the
inspected window. -/
lemma hoverFold_eq (probe : ℚ → ℚ → Except Err (Option HoverStyle)) :
    ∀ (l : List InterRec) (acc : List HoverSampleRec),
      l.foldl (hoverStep probe) acc = acc ++ l.filterMap (probeSample probe) := by
  intro l
  induction l with
  | nil => intro acc; simp
  | cons e rest ih =>
    intro acc
    cases hp : probe (e.position.left + e.position.width / 2)
        (e.position.top + e.position.height / 2) with
    | error err => simp [hoverStep, probeSample, hp, ih]
    | ok oh =>
      cases oh with
      | none => simp [hoverStep, probeSample, hp, ih]
      | some hv => simp [hoverStep, probeSample, hp, ih]

/-! ### Claim C1 -/

/-- A run whose navigation succeeds but whose colour-extraction stage
raises. -/
def c1FailOutcomes : StageOutcomes := { colors := Except.error ("color stage failed") }

/-- C1 (counterexample): the claim says a failure in a non-navigation
stage is caught locally and the pipeline proceeds to completion.  In the
code there is no such handler: with navigation succeeding and only the
colour stage raising, `extract_all` propagates the exception and `main`
exits with status 1. -/
theorem claim1_stage_failure_aborts_run :
    c1FailOutcomes.navigate = Except.ok ()
      ∧ (extractAllT ("https://example.com") 1600 1200 c1FailOutcomes).2
          = Except.error ("color stage failed")
      ∧ mainExitCode ("https://example.com") 1600 1200 c1FailOutcomes = 1 :=
  ⟨rfl, rfl, rfl⟩

/-- C1 (amended): no stage failure is caught inside `extract_all` — a run
completes if and only if *every* stage call (navigation included)
succeeds; any single stage exception aborts the run. -/
theorem claim1_run_completes_iff_all_stages_succeed (url : String) (vw vh : ℕ)
    (o : StageOutcomes) :
    exceptOk (extractAllT url vw vh o).2 =
      (exceptOk o.navigate && exceptOk o.screenshots && exceptOk o.content
        && exceptOk o.extractCss && exceptOk o.computedStyles && exceptOk o.interactive
        && exceptOk o.colors && exceptOk o.typography && exceptOk o.layout
        && exceptOk o.animations && exceptOk o.effects && exceptOk o.components
        && exceptOk o.ux && exceptOk o.responsive) :=
  (extractAllT_run url vw vh o).1

/-! ### Claim C2 -/

/-- Breakpoint outcomes in which the tablet measurement raises. -/
def c2FailOut : String → BpOutcome :=
  fun nm => if nm = "tablet" then { layoutInfo := Except.error ("tablet measurement failed") }
    else {}

/-- All-succeeding breakpoint outcomes. -/
def c2OkOut : String → BpOutcome := fun _ => {}

/-- C2 (counterexample): the claim says the viewport restoration happens
even when a breakpoint measurement raises.  There is no `try`/`finally` in
`_test_responsive`: when the tablet measurement raises, the error
propagates and the viewport stays at the tablet size 768×1024, not at the
configured 1600×1200. -/
theorem claim2_error_skips_viewport_restore :
    (testResponsive 1600 1200 c2FailOut (1600, 1200)).1 = (768, 1024)
      ∧ ((768, 1024) : ℕ × ℕ) ≠ (1600, 1200)
      ∧ (testResponsive 1600 1200 c2FailOut (1600, 1200)).2
          = Except.error ("tablet measurement failed") :=
  ⟨rfl, by decide, rfl⟩

/-- C2 (amended): the restoration is reached only on the success path —
whenever the responsive stage completes without an exception, the final
viewport equals the configured one (whatever viewport state the stage
started from); an exception in a breakpoint step propagates instead and
skips the reset. -/
theorem claim2_viewport_restored_on_success (cfgW cfgH : ℕ) (out : String → BpOutcome)
    (vp0 : ℕ × ℕ) (h : exceptOk (testResponsive cfgW cfgH out vp0).2 = true) :
    (testResponsive cfgW cfgH out vp0).1 = (cfgW, cfgH) :=
  testResponsiveGo_ok cfgW cfgH out breakpoints vp0 [] h

/-- C2 witness: a fully successful responsive pass restores 1600×1200. -/
theorem claim2_viewport_restored_on_success_witness :
    exceptOk (testResponsive 1600 1200 c2OkOut (1600, 1200)).2 = true
      ∧ (testResponsive 1600 1200 c2OkOut (1600, 1200)).1 = (1600, 1200) :=
  ⟨rfl, claim2_viewport_restored_on_success 1600 1200 c2OkOut (1600, 1200) rfl⟩

/-! ### Claim C3 -/

/-- C3 (counterexample): the claim's order (the spec's state machine,
`specStageOrder`) puts the interactive probe after the computed-style
collectors.  The trace of a completed run, restricted to the stages the
spec names, is not `specStageOrder`: the code probes interactive states
*before* the colour/typography/layout/animation/effects collectors. -/
theorem claim3_spec_order_differs_from_code :
    ((extractAllT ("https://example.com") 1600 1200 okOutcomes).1.filter
        (fun s => decide (s ∈ specStageOrder))) ≠ specStageOrder := by
  decide

/-- C3 (amended): every completed run enters the stages in the code's
fixed linear order — navigate, screenshots, HTML content, CSS extraction,
computed styles (StyleSampler), *interactive probing*, colors, typography,
layout, animations, effects, components, UX analysis, responsive sampling
(last, because it mutates the viewport), aggregation. -/
theorem claim3_completed_run_trace (url : String) (vw vh : ℕ) (o : StageOutcomes)
    (h : exceptOk (extractAllT url vw vh o).2 = true) :
    (extractAllT url vw vh o).1 = codeStageOrder :=
  (extractAllT_run url vw vh o).2 h

/-- C3 witness: the all-stages-succeed run completes and its trace is the
code's stage order. -/
theorem claim3_completed_run_trace_witness :
    exceptOk (extractAllT ("https://example.com") 1600 1200 okOutcomes).2 = true
      ∧ (extractAllT ("https://example.com") 1600 1200 okOutcomes).1 = codeStageOrder :=
  ⟨rfl, claim3_completed_run_trace ("https://example.com") 1600 1200 okOutcomes rfl⟩

/-! ### Claim C4 -/

/-- A small page on which the StyleSampler's collision handling breaks:
`<p class="note_2">`, `<p class="note">`, `<p class="note">`. -/
def claim4Page : List DomEl :=
  [{ tag := "P", className := "note_2", classList := ["note_2"] },
   { tag := "P", className := "note", classList := ["note"] },
   { tag := "P", className := "note", classList := ["note"] }]

/-- C4 (code bug): the membership test runs on the *base* selector only,
so the index-suffixed selector of the third element (`p.note` at traversal
index 2 becomes `p.note_2`) collides with the first element's base
selector `p.note_2`.  The pass therefore produces a duplicate key, and the
JavaScript object ends up with 2 entries for 3 elements — the third
assignment silently overwrites the first element's record, contrary to the
uniqueness the `seenSelectors` set is there to ensure. -/
theorem claim4_suffixed_selector_collides :
    selectorKeys claim4Page = ["p.note_2", "p.note", "p.note_2"]
      ∧ ¬ (selectorKeys claim4Page).Nodup
      ∧ (insertionDedup (selectorKeys claim4Page)).length = 2
      ∧ claim4Page.length = 3 := by
  decide

/-! ### Claim C5 -/

/-- Modelled from the spec's words, for comparison with `csBaseSelector`:
"derives a selector from tag name + id + first-three class names". -/
def specSelectorFirstThree (el : DomEl) : String :=
  lowerStr el.tag
    ++ (if el.idAttr = "" then "" else "#" ++ el.idAttr)
    ++ (if el.className = "" then "" else "." ++ String.intercalate (".") (el.classList.take 3))

/-- An element with four classes. -/
def claim5El : DomEl :=
  { tag := "DIV", className := "a b c d", classList := ["a", "b", "c", "d"] }

/-- An element with a single class. -/
def claim5WEl : DomEl := { tag := "A", className := "x", classList := ["x"] }

/-- C5 (counterexample): the StyleSampler's selector joins *all* classes —
`Array.from(el.classList).join('.')` has no `slice(0, 3)` (that truncation
exists only in `_capture_interactive_states`).  On a four-class element
the produced key carries the fourth class, unlike the spec's first-three
derivation. -/
theorem claim5_selector_keeps_all_classes :
    csBaseSelector claim5El ≠ specSelectorFirstThree claim5El
      ∧ selectorKeys [claim5El] = ["div.a.b.c.d"]
      ∧ specSelectorFirstThree claim5El = ("div.a.b.c") := by
  decide

/-- C5 (amended): the StyleSampler selector is built from the tag name,
the id (if any) and *all* class names; it agrees with the spec's
first-three description exactly on elements with at most three classes. -/
theorem claim5_first_three_only_on_few_classes (el : DomEl)
    (h : el.classList.length ≤ 3) :
    csBaseSelector el = specSelectorFirstThree el := by
  unfold csBaseSelector specSelectorFirstThree
  rw [List.take_of_length_le h]

/-- C5 witness: on a one-class element the two derivations coincide. -/
theorem claim5_first_three_only_on_few_classes_witness :
    claim5WEl.classList.length ≤ 3
      ∧ csBaseSelector claim5WEl = specSelectorFirstThree claim5WEl :=
  ⟨by decide, claim5_first_three_only_on_few_classes claim5WEl (by decide)⟩

/-! ### Claim C6 -/

/-- Two paragraphs whose font sizes and opacities appear in descending
order in the document. -/
def claim6Page : List DomEl :=
  [{ tag := "P", style := { fontSize := "20px", opacity := "0.9" } },
   { tag := "P", style := { fontSize := "12px", opacity := "0.5" } }]

/-- C6 (counterexample): the claim says only layout's spacing values are
sorted and that typography and effects collections keep first-encounter
order.  But `_extract_typography` sorts `sizes` with the `parseFloat`
comparator (and `weights`/`lineHeights` with the default `sort()`), and
`_extract_effects` sorts `opacities`: on this page the outputs are in
ascending order, not encounter order. -/
theorem claim6_typography_and_effects_resorted :
    (extractTypography claim6Page).sizes = ["12px", "20px"]
      ∧ insertionDedup ((claim6Page.filter typMatch).map (fun el => el.style.fontSize))
          = ["20px", "12px"]
      ∧ (extractTypography claim6Page).sizes
          ≠ insertionDedup ((claim6Page.filter typMatch).map (fun el => el.style.fontSize))
      ∧ (extractEffects claim6Page).opacities = ["0.5", "0.9"]
      ∧ (extractEffects claim6Page).opacities
          ≠ insertionDedup ((claim6Page.filter (fun el => el.style.opacity != "1")).map
              (fun el => el.style.opacity)) := by
  decide

/-- C6 (amended): layout's spacing collections (margins, paddings, gaps,
border-radii) are numerically sorted ascending as claimed, but in addition
typography's `sizes` are numerically sorted and its `weights` and
`lineHeights` — as well as effects' `opacities` — are sorted with the
default string comparator; the remaining collections (`fonts`,
`letterSpacings`, `maxWidths`, `boxShadows`, …) keep first-encounter
order. -/
theorem claim6_collection_orders (els : List DomEl) :
    List.Sorted numLe (extractTypography els).sizes
      ∧ ((extractTypography els).sizes).Perm
          (insertionDedup ((els.filter typMatch).map (fun el => el.style.fontSize)))
      ∧ List.Sorted lexLe (extractTypography els).weights
      ∧ List.Sorted lexLe (extractTypography els).lineHeights
      ∧ (extractTypography els).fonts
          = insertionDedup ((els.filter typMatch).map (fun el => el.style.fontFamily))
      ∧ (extractTypography els).letterSpacings
          = insertionDedup ((els.filter typMatch).map (fun el => el.style.letterSpacing))
      ∧ List.Sorted numLe (extractLayout els).margins
      ∧ List.Sorted numLe (extractLayout els).paddings
      ∧ List.Sorted numLe (extractLayout els).gaps
      ∧ List.Sorted numLe (extractLayout els).borderRadii
      ∧ (extractLayout els).maxWidths
          = insertionDedup ((els.filter (fun el => el.style.maxWidth != "none")).map
              (fun el => el.style.maxWidth))
      ∧ List.Sorted lexLe (extractEffects els).opacities
      ∧ (extractEffects els).boxShadows
          = insertionDedup ((els.filter (fun el => el.style.boxShadow != "none")).map
              (fun el => el.style.boxShadow)) := by
  refine ⟨?_, ?_, ?_, ?_, rfl, rfl, ?_, ?_, ?_, ?_, rfl, ?_, rfl⟩
  all_goals first
    | exact List.sorted_insertionSort numLe _
    | exact List.sorted_insertionSort lexLe _
    | exact List.perm_insertionSort numLe _

/-! ### Claim C7 -/

/-- A `<button>` whose bounding rect is 0×0 (hidden). -/
def claim7Btn : DomEl := { tag := "BUTTON" }

/-- C7 (counterexample): the claim says a minimum rendered-size filter
excludes hidden matches *in each category*.  Only the card branch checks
the bounding rect: a 0×0 button is still sampled. -/
theorem claim7_zero_size_button_included :
    (identifyComponents [claim7Btn]).buttons.length = 1
      ∧ claim7Btn.rectW = 0 ∧ claim7Btn.rectH = 0
      ∧ bigRect claim7Btn = false := by
  decide

/-- C7 (amended): bucketing is by tag/role/class matching with per-kind
caps 5/3/2/5 as claimed, but the rendered-size gate exists only for cards
(`rect.width > 200 && rect.height > 100`, applied inside the first-three
matched window): the button/navbar/form sample counts depend only on how
many elements match, never on their size. -/
theorem claim7_caps_and_card_only_size_gate (els : List DomEl) :
    (identifyComponents els).buttons.length = min 5 (els.filter matchesButtonSel).length
      ∧ (identifyComponents els).navbars.length = min 2 (els.filter matchesNavSel).length
      ∧ (identifyComponents els).forms.length = min 5 (els.filter matchesFormSel).length
      ∧ (identifyComponents els).cards.length
          = (((els.filter matchesCardSel).take 3).filter bigRect).length
      ∧ (identifyComponents els).cards.length ≤ 3 := by
  refine ⟨?_, ?_, ?_, ?_, ?_⟩
  · simp [identifyComponents, List.length_map, List.length_take]
  · simp [identifyComponents, List.length_map, List.length_take]
  · simp [identifyComponents, List.length_map, List.length_take]
  · simp [identifyComponents, List.length_map]
  · have h : (identifyComponents els).cards.length
        = (((els.filter matchesCardSel).take 3).filter bigRect).length := by
      simp [identifyComponents, List.length_map]
    rw [h]
    exact le_trans (List.length_filter_le _ _)
      (by rw [List.length_take]; exact Nat.min_le_left _ _)

/-! ### Claim C8 -/

/-- C8: the hover loop inspects at most the first 10 visible interactive
elements; every recorded sample pairs the *originally selected* element's
default style and selector with the style of whichever element the page
reports topmost at that element's bounding-box center; and for each
inspected element a sample is recorded exactly when the topmost query
yields an element (the pointer move and fixed settle delay are browser
side effects, absorbed into the abstract `probe`). -/
theorem claim8_hover_probe (els : List DomEl)
    (probe : ℚ → ℚ → Except Err (Option HoverStyle)) :
    (captureInteractiveStates els probe).hover_samples.length ≤ 10
      ∧ (∀ s ∈ (captureInteractiveStates els probe).hover_samples,
          ∃ e ∈ (interactiveElements els).take 10,
            s.selector = e.selector ∧ s.defaultStyle = e.defaultStyle
              ∧ probe (e.position.left + e.position.width / 2)
                  (e.position.top + e.position.height / 2) = Except.ok (some s.hover))
      ∧ (∀ e ∈ (interactiveElements els).take 10, ∀ hv,
          probe (e.position.left + e.position.width / 2)
              (e.position.top + e.position.height / 2) = Except.ok (some hv) →
            ({ selector := e.selector, hover := hv, defaultStyle := e.defaultStyle }
                : HoverSampleRec) ∈ (captureInteractiveStates els probe).hover_samples) := by
  have hfold : (captureInteractiveStates els probe).hover_samples
      = ((interactiveElements els).take 10).filterMap (probeSample probe) := by
    simp [captureInteractiveStates, hoverFold_eq]
  refine ⟨?_, ?_, ?_⟩
  · rw [hfold]
    exact le_trans (List.length_filterMap_le _ _)
      (by rw [List.length_take]; exact Nat.min_le_left _ _)
  · intro s hs
    rw [hfold] at hs
    obtain ⟨e, he, hpe⟩ := List.mem_filterMap.mp hs
    refine ⟨e, he, ?_⟩
    unfold probeSample at hpe
    cases hp : probe (e.position.left + e.position.width / 2)
        (e.position.top + e.position.height / 2) with
    | error m => rw [hp] at hpe; exact nomatch hpe
    | ok oh =>
      cases oh with
      | none => rw [hp] at hpe; exact nomatch hpe
      | some hv =>
        rw [hp] at hpe
        injection hpe with h2
        subst h2
        exact ⟨rfl, rfl, rfl⟩
  · intro e he hv hp
    rw [hfold]
    exact List.mem_filterMap.mpr ⟨e, he, by simp [probeSample, hp]⟩

/-- A visible interactive anchor. -/
def claim8El : DomEl := { tag := "A", rectW := 10, rectH := 10 }

/-- A distinguishable hover style returned by the page. -/
def claim8Hover : HoverStyle := { backgroundColor := "rgb(1, 2, 3)" }

/-- A page whose topmost-element query always finds an element with
`claim8Hover`'s style. -/
def claim8Probe : ℚ → ℚ → Except Err (Option HoverStyle) :=
  fun _ _ => Except.ok (some claim8Hover)

/-- The record the in-page script builds for `claim8El`. -/
def claim8Rec : InterRec := mkInterRec 0 claim8El

/-- C8 witness: on a one-anchor page with a responding topmost query, the
sample pairing the anchor's default style with the probed hover style is
recorded. -/
theorem claim8_hover_probe_witness :
    (captureInteractiveStates [claim8El] claim8Probe).hover_samples.length ≤ 10
      ∧ ({ selector := claim8Rec.selector, hover := claim8Hover
           defaultStyle := claim8Rec.defaultStyle } : HoverSampleRec)
          ∈ (captureInteractiveStates [claim8El] claim8Probe).hover_samples := by
  obtain ⟨h1, h2, h3⟩ := claim8_hover_probe [claim8El] claim8Probe
  exact ⟨h1, h3 claim8Rec (by decide) claim8Hover rfl⟩

/-! ### Claim C9 -/

/-- C9: `all_interactive` is the *uncapped* in-page list — it contains one
record (selector, position, default style) for every visible interactive
element of the document; only `hover_samples` is limited to 10. -/
theorem claim9_all_interactive_uncapped (els : List DomEl)
    (probe : ℚ → ℚ → Except Err (Option HoverStyle)) :
    (captureInteractiveStates els probe).all_interactive = interactiveElements els
      ∧ (interactiveElements els).length
          = ((els.filter interactiveMatch).filter visibleEl).length
      ∧ (∀ el ∈ els, interactiveMatch el = true → visibleEl el = true →
          ∃ r ∈ (captureInteractiveStates els probe).all_interactive,
            r.selector = interSelector el ∧ r.defaultStyle = defaultStyleOf el
              ∧ r.position = positionOf el)
      ∧ (captureInteractiveStates els probe).hover_samples.length ≤ 10 := by
  refine ⟨rfl, ?_, ?_, ?_⟩
  · exact interactiveElementsGo_length (els.filter interactiveMatch) 0
  · intro el hel hm hv
    have hmem : el ∈ els.filter interactiveMatch := List.mem_filter.mpr ⟨hel, hm⟩
    exact interactiveElementsGo_mem el (els.filter interactiveMatch) 0 hmem hv
  · have hfold : (captureInteractiveStates els probe).hover_samples
        = ((interactiveElements els).take 10).filterMap (probeSample probe) := by
      simp [captureInteractiveStates, hoverFold_eq]
    rw [hfold]
    exact le_trans (List.length_filterMap_le _ _)
      (by rw [List.length_take]; exact Nat.min_le_left _ _)

/-- A visible button element. -/
def claim9El : DomEl := { tag := "BUTTON", rectW := 5, rectH := 5 }

/-- A page whose topmost query finds nothing. -/
def claim9Probe : ℚ → ℚ → Except Err (Option HoverStyle) := fun _ _ => Except.ok none

/-- C9 witness: the one visible button appears in `all_interactive` with
its selector, default style and position, even though no hover sample is
recorded. -/
theorem claim9_all_interactive_uncapped_witness :
    (∃ r ∈ (captureInteractiveStates [claim9El] claim9Probe).all_interactive,
        r.selector = interSelector claim9El ∧ r.defaultStyle = defaultStyleOf claim9El
          ∧ r.position = positionOf claim9El)
      ∧ (captureInteractiveStates [claim9El] claim9Probe).hover_samples.length ≤ 10 := by
  obtain ⟨h1, h2, h3, h4⟩ := claim9_all_interactive_uncapped [claim9El] claim9Probe
  exact ⟨h3 claim9El (by decide) (by decide) (by decide), h4⟩

/-! ### Claim C10 -/

/-- C10: `_identify_components` initialises `modals`, `badges` and
`alerts` and never appends to them — on every page all three come back as
empty lists. -/
theorem claim10_modals_badges_alerts_always_empty (els : List DomEl) :
    (identifyComponents els).modals = [] ∧ (identifyComponents els).badges = []
      ∧ (identifyComponents els).alerts = [] :=
  ⟨rfl, rfl, rfl⟩

end DesignGuide
